import Mathlib

/-!
Shallow embedding of the cyberpunk stock dashboard (src/app.py).

Modelling conventions:
* Python dict values are `Val` (number or string); a missing key is `Option.none`,
  matching `dict.get` returning Python None.  Python truthiness is `truthy`.
* Floats are modelled as exact rationals; the f-string fixed-point formatters
  (`:,.2f`, `:,.0f`, `:.2f`) are modelled with round-half-to-even on rationals.
* External calls (yfinance, requests) are modelled by their outcome, an
  `Except Exn` value supplied by an environment; a raised Python exception is
  `Except.error`.  Code that swallows exceptions becomes a total function.
* Streamlit emission (`st.warning`, `st.metric`, ...) is modelled as an output
  list `List Output`; presentation chrome (CSS, video background, dividers,
  logo images) carries no data and is omitted from the output model.
-/

/-- Python exception, reduced to its message. -/
abbrev Exn := String

/-- Python value stored in a provider mapping: JSON number or string. -/
inductive Val where
  | num (q : ℚ)
  | str (s : String)
deriving Repr, DecidableEq

/-- Python truthiness of a `dict.get` result: None and falsy values
(0, empty string) are false. -/
def truthy : Option Val → Bool
  | none => false
  | some (Val.num q) => q != 0
  | some (Val.str s) => s != ""

/-- Python `a or b`: the first operand when truthy, the second otherwise. -/
def pyOr (a b : Option Val) : Option Val :=
  if truthy a then a else b

/-- Decimal string of a rational for f-string interpolation; exact for the
integral values the dashboard feeds through bare interpolation. -/
def ratStr (q : ℚ) : String :=
  if q.den = 1 then toString q.num else toString q.num ++ "/" ++ toString q.den

/-- Python `str()` as applied inside an f-string: None prints as "None". -/
def pyStr : Option Val → String
  | none => "None"
  | some (Val.str s) => s
  | some (Val.num q) => ratStr q

/-- Round half to even, as Python float formatting does. -/
def roundHalfEven (x : ℚ) : ℤ :=
  let n := x.floor
  let r := x - n
  if r < 1/2 then n
  else if 1/2 < r then n + 1
  else if n % 2 = 0 then n else n + 1

/-- Pad the decimal digits of `n` with leading zeros to width `k`. -/
def natDigitsPad (n : Nat) (k : Nat) : String :=
  let s := toString n
  String.mk (List.replicate (k - s.length) '0') ++ s

/-- Insert a comma after every third character of a reversed digit list
(thousands grouping, working from the least significant digit). -/
def commaRev : List Char → List Char
  | a :: b :: c :: d :: rest => a :: b :: c :: ',' :: commaRev (d :: rest)
  | l => l

/-- Fixed-point formatting of a rational with `decs` decimals, optionally with
thousands separators: the model of Python `format(x, ",.2f")` and friends. -/
def fmtFixedCore (decs : Nat) (comma : Bool) (q : ℚ) : String :=
  let scaled := roundHalfEven (q * ((10 : ℚ) ^ decs))
  let sign := if scaled < 0 then "-" else ""
  let n := scaled.natAbs
  let ip := n / 10 ^ decs
  let fp := n % 10 ^ decs
  let ipStr :=
    if comma then String.mk (commaRev (toString ip).toList.reverse).reverse
    else toString ip
  sign ++ ipStr ++ (if decs = 0 then "" else "." ++ natDigitsPad fp decs)

/-- Model of Python fixed-point formatting without grouping. -/
def fmtFixed (decs : Nat) (q : ℚ) : String := fmtFixedCore decs false q

/-- Model of Python fixed-point formatting with thousands grouping. -/
def fmtCommaFixed (decs : Nat) (q : ℚ) : String := fmtFixedCore decs true q

/-- Formatting a possibly-missing `dict.get` result with a `,.Nf` spec:
numbers format; strings and None raise (ValueError / TypeError). -/
def fmtMoneyVal (decs : Nat) : Option Val → Except Exn String
  | some (Val.num q) => Except.ok (fmtCommaFixed decs q)
  | some (Val.str _) => Except.error "ValueError: cannot format str with f"
  | none => Except.error "TypeError: unsupported format string passed to NoneType"

/-- Company-info mapping: association list of provider-supplied fields. -/
abbrev Info := List (String × Val)

/-- Python `info.get(k)`: first binding of the key, None when absent. -/
def Info.get (info : Info) (k : String) : Option Val :=
  List.lookup k info

/-- Python `info.get(k, d)`. -/
def Info.getD (info : Info) (k : String) (d : Val) : Val :=
  (Info.get info k).getD d

/-- One row of a price-history DataFrame: timestamp index and Close. -/
structure Row where
  date : ℤ
  close : ℚ
deriving Repr, DecidableEq

/-- Price history (the DataFrame rows, ascending by timestamp). -/
abbrev Hist := List Row

/-- News item as parsed from the Finnhub JSON body (contract fields). -/
structure NewsItem where
  headline : Option String
  url : Option String
  source : Option String
  datetime : Option ℤ
deriving Repr, DecidableEq

/-- Truthiness of an optional string field (absent and empty are falsy). -/
def truthyOS : Option String → Bool
  | none => false
  | some s => s != ""

/-- app.py line 180: an item is kept when `item.get("headline") and
item.get("url")` is truthy. -/
def keepItem (i : NewsItem) : Bool :=
  truthyOS i.headline && truthyOS i.url

/-- app.py lines 154-159, `get_stock_data`: returns the fetched history, or an
empty DataFrame when the client raises. -/
def get_stock_data (client : Except Exn Hist) : Hist :=
  match client with
  | Except.ok h => h
  | Except.error _ => []

/-- app.py lines 161-166, `get_info_cached`: returns the fetched info mapping,
or an empty mapping when the client raises. -/
def get_info_cached (client : Except Exn Info) : Info :=
  match client with
  | Except.ok i => i
  | Except.error _ => []

/-- app.py lines 168-183, `get_company_news`: empty key short-circuits to [];
a 200 response yields the filtered items; any other status or a raised
exception yields []. -/
def get_company_news (api_key : String) (resp : Except Exn (ℕ × List NewsItem)) :
    List NewsItem :=
  if api_key = "" then []
  else
    match resp with
    | Except.ok (status, data) =>
        if status = 200 then data.filter keepItem else []
    | Except.error _ => []

/-- app.py lines 144-149: refresh check over the session state.  Takes the
stored `last_refresh` (None on first run), the current time and the configured
interval; returns the new `last_refresh` and whether a rerun was triggered. -/
def refreshCheck (lastRefresh : Option ℚ) (now : ℚ) (refreshRate : ℚ) :
    ℚ × Bool :=
  match lastRefresh with
  | none => (now, false)
  | some lr => if now - lr > refreshRate then (now, true) else (lr, false)

/-- One visible emission of the pipeline (Streamlit call carrying data). -/
inductive Output where
  | warning (msg : String)
  | header (name : String) (caption : String)
  | pyplotChart (ticker : String)
  | plotlyChart (ticker : String)
  | metric (label : String) (value : String) (delta : Option String)
  | expander (text : String)
  | info (msg : String)
  | subheader (msg : String)
  | newsCard (item : NewsItem)
  | error (msg : String)
deriving Repr, DecidableEq

/-- app.py lines 189-210, `render_company_header`: emits the short name (the
ticker when absent) and the sector/industry caption with N/A defaults.  The
logo fetch (lines 200-207) swallows every exception and carries no data, so it
is omitted from the output model. -/
def render_company_header (info : Info) (ticker : String) : List Output :=
  let name := match Info.get info "shortName" with
    | some v => pyStr (some v)
    | none => ticker
  let sector := match Info.get info "sector" with
    | some v => pyStr (some v)
    | none => "N/A"
  let industry := match Info.get info "industry" with
    | some v => pyStr (some v)
    | none => "N/A"
  [Output.header name (sector ++ " | " ++ industry)]

/-- app.py lines 212-260, `render_matplotlib_cyberpunk_chart`.  Only the
imports (lines 214-218) are inside a try/except returning False; `available`
models whether they succeed.  The chart body (style, subplots, plot, date
formatter, st.pyplot) is unguarded: `bodyExn` models an exception raised
there, which propagates to the caller.  The imshow (229-234) and glow
(254-257) failures are swallowed and change no emitted data. -/
def render_matplotlib_cyberpunk_chart (available : Bool) (bodyExn : Option Exn)
    (hist : Hist) (ticker : String) (bgImage : Option Unit) :
    Except Exn (List Output × Bool) :=
  if available = false then Except.ok ([], false)
  else
    match bodyExn with
    | some e => Except.error e
    | none => Except.ok ([Output.pyplotChart ticker], true)

/-- app.py lines 262-280, `render_plotly_fallback`. -/
def render_plotly_fallback (hist : Hist) (ticker : String) : List Output :=
  [Output.plotlyChart ticker]

/-- app.py lines 297-300: try the matplotlib chart first; when it reports
False (toolkit unavailable), render the plotly fallback.  An exception from
the matplotlib body propagates. -/
def chartStep (available : Bool) (bodyExn : Option Exn) (hist : Hist)
    (ticker : String) (bgImage : Option Unit) : Except Exn (List Output) :=
  match render_matplotlib_cyberpunk_chart available bodyExn hist ticker bgImage with
  | Except.error e => Except.error e
  | Except.ok (outs, rendered) =>
      Except.ok (outs ++ if rendered then [] else render_plotly_fallback hist ticker)

/-- app.py line 305: `info.get("currentPrice") or info.get("regularMarketPrice")`. -/
def resolvedPrice (info : Info) : Option Val :=
  pyOr (Info.get info "currentPrice") (Info.get info "regularMarketPrice")

/-- app.py line 310: `f"${price:,.2f}" if price else "N/A"`; formatting a
truthy non-number raises. -/
def priceDisplay (info : Info) : Except Exn String :=
  if truthy (resolvedPrice info) then
    (fmtMoneyVal 2 (resolvedPrice info)).map (fun s => "$" ++ s)
  else Except.ok "N/A"

/-- app.py line 312: `f"${cap:,.0f}" if cap else "N/A"`. -/
def capDisplay (info : Info) : Except Exn String :=
  if truthy (Info.get info "marketCap") then
    (fmtMoneyVal 0 (Info.get info "marketCap")).map (fun s => "$" ++ s)
  else Except.ok "N/A"

/-- app.py line 314: `f"${high} / ${low}"` with no guard; absent fields
interpolate as "None". -/
def rangeDisplay (info : Info) : String :=
  "$" ++ pyStr (Info.get info "fiftyTwoWeekHigh") ++ " / $"
      ++ pyStr (Info.get info "fiftyTwoWeekLow")

/-- Close prices at iloc[-2] and iloc[-1] of a DataFrame, when it has at
least two rows. -/
def lastTwoCloses (h : Hist) : Option (ℚ × ℚ) :=
  match h.reverse with
  | a :: b :: _ => some (b.close, a.close)
  | _ => none

/-- app.py lines 315-320: the Daily Change metric, emitted only when the
5-day series has at least two rows; change = close[-1] - close[-2] and
percent = change / close[-2] * 100, formatted with `:.2f`. -/
def dailyChangeMetric (hist5d : Hist) : Option Output :=
  match lastTwoCloses hist5d with
  | some (prev, lastC) =>
      let change := lastC - prev
      some (Output.metric "Daily Change" ("$" ++ fmtFixed 2 change)
        (some (fmtFixed 2 (change / prev * 100) ++ "%")))
  | none => none

/-- app.py lines 302-320: the metrics row, emitted left to right; a
formatting exception aborts the row after the metrics already emitted. -/
def metricsStep (info : Info) (hist5d : Hist) : List Output × Option Exn :=
  match priceDisplay info with
  | Except.error e => ([], some e)
  | Except.ok p =>
      match capDisplay info with
      | Except.error e => ([Output.metric "Current Price" p none], some e)
      | Except.ok c =>
          ([Output.metric "Current Price" p none,
            Output.metric "Market Cap" c none,
            Output.metric "52w High / Low" (rangeDisplay info) none]
            ++ (dailyChangeMetric hist5d).toList, none)

/-- app.py lines 322-328: the description block.  `summary.strip()` on a
truthy non-string raises (AttributeError). -/
def descriptionStep (info : Info) : List Output × Option Exn :=
  let summary := Info.getD info "longBusinessSummary"
    (Val.str "No company description available.")
  if truthy (some summary) then
    match summary with
    | Val.str s =>
        if s.trim ≠ "" then ([Output.expander s], none)
        else ([Output.info "No company description available."], none)
    | Val.num _ => ([], some "AttributeError: num has no attribute strip")
  else ([Output.info "No company description available."], none)

/-- app.py lines 332-347: the news section.  Without a key: a prompt and no
fetch.  With a key: fetch, then either up to five cards (news[:5], provider
order) or a no-news notice. -/
def newsStep (key : String) (ticker : String)
    (resp : Except Exn (ℕ × List NewsItem)) : List Output :=
  if key = "" then
    [Output.subheader ("📰 " ++ ticker ++ " Recent News"),
     Output.info "Enter your Finnhub API key in the sidebar to enable company news."]
  else
    Output.subheader ("📰 " ++ ticker ++ " Recent News") ::
      (if (get_company_news key resp).isEmpty then
        [Output.info "No recent news available."]
      else ((get_company_news key resp).take 5).map Output.newsCard)

/-- Run-wide configuration read from the sidebar and the runtime. -/
structure Config where
  finnhubKey : String
  mplAvailable : Bool
  bgImage : Option Unit
deriving Repr, DecidableEq

/-- Outcomes of the external calls one ticker iteration can make, plus the
exception injection point of the unguarded matplotlib body. -/
structure TickerEnv where
  infoClient : Except Exn Info
  histClient : Except Exn Hist
  hist5dClient : Except Exn Hist
  newsResp : Except Exn (ℕ × List NewsItem)
  mplBodyExn : Option Exn

/-- app.py lines 286-349: the body of one ticker iteration (inside the try).
Returns the outputs emitted so far and the exception, if one escaped.  The
`hist is None` half of the line-290 guard is unreachable because
`get_stock_data` always returns a DataFrame, so the guard reduces to
emptiness. -/
def processTickerBody (cfg : Config) (env : TickerEnv) (ticker : String) :
    List Output × Option Exn :=
  let info := get_info_cached env.infoClient
  let hist := get_stock_data env.histClient
  if hist.isEmpty then
    ([Output.warning ("No data available for " ++ ticker)], none)
  else
    let headerOuts := render_company_header info ticker
    match chartStep cfg.mplAvailable env.mplBodyExn hist ticker cfg.bgImage with
    | Except.error e => (headerOuts, some e)
    | Except.ok chartOuts =>
        match metricsStep info (get_stock_data env.hist5dClient) with
        | (metricOuts, some e) => (headerOuts ++ chartOuts ++ metricOuts, some e)
        | (metricOuts, none) =>
            match descriptionStep info with
            | (descOuts, some e) =>
                (headerOuts ++ chartOuts ++ metricOuts ++ descOuts, some e)
            | (descOuts, none) =>
                let newsOuts := newsStep cfg.finnhubKey ticker env.newsResp
                (headerOuts ++ chartOuts ++ metricOuts ++ descOuts ++ newsOuts, none)

/-- app.py lines 285-352: one loop iteration with its except clause; an
escaped exception becomes a visible error naming the ticker. -/
def runOneTicker (cfg : Config) (env : TickerEnv) (ticker : String) : List Output :=
  match processTickerBody cfg env ticker with
  | (outs, none) => outs
  | (outs, some e) =>
      outs ++ [Output.error ("Could not load info for " ++ ticker ++ ": " ++ e)]

/-- app.py lines 285-352: the full ticker loop, each ticker with its own
external-call outcomes. -/
def runTickers (cfg : Config) (envs : String → TickerEnv) :
    List String → List Output
  | [] => []
  | t :: ts => runOneTicker cfg (envs t) t ++ runTickers cfg envs ts

/-- Recognizer for news-card emissions. -/
def isNewsCard : Output → Bool
  | Output.newsCard _ => true
  | _ => false

/-- Demo configuration for concrete instantiations: no API key, matplotlib
unavailable, no background image. -/
def demoCfg : Config := ⟨"", false, none⟩

/-- Demo environment whose metrics row raises: currentPrice is a truthy
string, so the `:,.2f` format raises mid-ticker. -/
def demoFailEnv : TickerEnv :=
  ⟨Except.ok [("currentPrice", Val.str "x")], Except.ok [⟨0, 1⟩],
   Except.ok [], Except.ok (200, []), none⟩

/-- Demo environment whose history fetch yields an empty DataFrame. -/
def demoEmptyEnv : TickerEnv :=
  ⟨Except.ok [], Except.ok [], Except.ok [], Except.ok (200, []), none⟩

/-- Helper: filtering a pure list of news cards keeps every card. -/
theorem filter_isNewsCard_map (l : List NewsItem) :
    (l.map Output.newsCard).filter isNewsCard = l.map Output.newsCard := by
  induction l with
  | nil => rfl
  | cons a t ih => simp [List.filter, isNewsCard, ih]

/-- C1: if one ticker raises anywhere in its processing steps, the exception
is caught at that ticker boundary, a visible error naming the ticker is
emitted after the outputs already produced, and every subsequent ticker is
still processed exactly as it would be on its own. -/
theorem ticker_failure_isolation (cfg : Config) (envs : String → TickerEnv)
    (t : String) (ts : List String) (outs : List Output) (e : Exn)
    (h : processTickerBody cfg (envs t) t = (outs, some e)) :
    runTickers cfg envs (t :: ts) =
      outs ++ [Output.error ("Could not load info for " ++ t ++ ": " ++ e)]
        ++ runTickers cfg envs ts := by
  simp [runTickers, runOneTicker, h]

theorem ticker_failure_isolation_witness :
    processTickerBody demoCfg demoFailEnv "T" =
      ([Output.header "T" "N/A | N/A", Output.plotlyChart "T"],
       some "ValueError: cannot format str with f") ∧
    runTickers demoCfg (fun _ => demoFailEnv) ["T", "U"] =
      [Output.header "T" "N/A | N/A", Output.plotlyChart "T"]
        ++ [Output.error ("Could not load info for " ++ "T" ++ ": "
              ++ "ValueError: cannot format str with f")]
        ++ runTickers demoCfg (fun _ => demoFailEnv) ["U"] :=
  ⟨by decide,
   ticker_failure_isolation demoCfg (fun _ => demoFailEnv) "T" ["U"] _ _ (by decide)⟩

/-- C2: each cached lookup is total over every client outcome, returning the
fetched value on success and the safe empty value (empty DataFrame, empty
mapping, empty list) on any client failure or non-200 status; the news lookup
with an empty key returns [] for every possible response, hence without
depending on any network call. -/
theorem cached_lookups_absorb_failures :
    (∀ e : Exn, get_stock_data (Except.error e) = []) ∧
    (∀ h : Hist, get_stock_data (Except.ok h) = h) ∧
    (∀ e : Exn, get_info_cached (Except.error e) = []) ∧
    (∀ i : Info, get_info_cached (Except.ok i) = i) ∧
    (∀ (key : String) (e : Exn), get_company_news key (Except.error e) = []) ∧
    (∀ (key : String) (status : ℕ) (data : List NewsItem), status ≠ 200 →
        get_company_news key (Except.ok (status, data)) = []) ∧
    (∀ resp : Except Exn (ℕ × List NewsItem), get_company_news "" resp = []) := by
  refine ⟨fun _ => rfl, fun _ => rfl, fun _ => rfl, fun _ => rfl, ?_, ?_, ?_⟩
  · intro key e
    by_cases hk : key = "" <;> simp [get_company_news, hk]
  · intro key status data hs
    by_cases hk : key = "" <;> simp [get_company_news, hk, hs]
  · intro resp
    simp [get_company_news]

theorem cached_lookups_absorb_failures_witness :
    (404 ≠ 200) ∧ get_company_news "k" (Except.ok (404, [])) = [] :=
  ⟨by decide,
   cached_lookups_absorb_failures.2.2.2.2.2.1 "k" 404 [] (by decide)⟩

/-- C3: a ticker whose fetched price history is empty produces exactly the
no-data warning (no chart, no metrics, no exception), and the batch continues
with the remaining tickers unchanged. -/
theorem empty_history_guard (cfg : Config) (envs : String → TickerEnv)
    (t : String) (ts : List String)
    (h : get_stock_data (envs t).histClient = []) :
    processTickerBody cfg (envs t) t =
      ([Output.warning ("No data available for " ++ t)], none) ∧
    runTickers cfg envs (t :: ts) =
      Output.warning ("No data available for " ++ t) :: runTickers cfg envs ts := by
  constructor
  · simp [processTickerBody, h]
  · simp [runTickers, runOneTicker, processTickerBody, h]

theorem empty_history_guard_witness :
    get_stock_data demoEmptyEnv.histClient = [] ∧
    (processTickerBody demoCfg demoEmptyEnv "T" =
      ([Output.warning ("No data available for " ++ "T")], none) ∧
    runTickers demoCfg (fun _ => demoEmptyEnv) ["T"] =
      Output.warning ("No data available for " ++ "T")
        :: runTickers demoCfg (fun _ => demoEmptyEnv) []) :=
  ⟨rfl, empty_history_guard demoCfg (fun _ => demoEmptyEnv) "T" [] rfl⟩

/-- C4 counterexample: with the matplotlib toolkit importable but its chart
body raising, the chart step exposes the exception to the caller and the
plotly fallback does not render, refuting the claim that a raising primary
always falls back with no failure exposed. -/
theorem chart_raise_escapes_counterexample :
    chartStep true (some "boom") [⟨0, 1⟩] "AAPL" none = Except.error "boom" ∧
    (Except.error "boom" : Except Exn (List Output)) ≠
      Except.ok (render_plotly_fallback [⟨0, 1⟩] "AAPL") := by
  refine ⟨rfl, ?_⟩
  intro h
  exact Except.noConfusion h

/-- C4 amended: the chain attempts the primary first; when the toolkit import
fails the fallback renders with no failure exposed, and when the primary
succeeds exactly it renders; but an exception raised by the primary body
after a successful import propagates to the caller and no fallback renders. -/
theorem chart_fallback_amended (hist : Hist) (ticker : String) (bg : Option Unit) :
    (∀ e : Option Exn, chartStep false e hist ticker bg =
        Except.ok (render_plotly_fallback hist ticker)) ∧
    chartStep true none hist ticker bg = Except.ok [Output.pyplotChart ticker] ∧
    (∀ ex : Exn, chartStep true (some ex) hist ticker bg = Except.error ex) := by
  refine ⟨fun e => ?_, rfl, fun ex => rfl⟩
  simp [chartStep, render_matplotlib_cyberpunk_chart, render_plotly_fallback]

/-- C5: the daily-change metric is emitted iff the 5-day series has at least
two rows; when emitted, change = close[-1] - close[-2] and percent =
change / close[-2] * 100; for closes [100, 105] the display is exactly $5.00
and 5.00%. -/
theorem daily_change_metric_spec :
    (∀ h : Hist, (dailyChangeMetric h).isSome = true ↔ 2 ≤ h.length) ∧
    (∀ (h : Hist) (a b : Row) (t : List Row), h.reverse = a :: b :: t →
        dailyChangeMetric h =
          some (Output.metric "Daily Change" ("$" ++ fmtFixed 2 (a.close - b.close))
            (some (fmtFixed 2 ((a.close - b.close) / b.close * 100) ++ "%")))) ∧
    dailyChangeMetric [⟨0, 100⟩, ⟨1, 105⟩] =
      some (Output.metric "Daily Change" "$5.00" (some "5.00%")) := by
  refine ⟨?_, ?_, by with_unfolding_all rfl⟩
  · intro h
    rw [← List.length_reverse]
    rcases hr : h.reverse with _ | ⟨a, _ | ⟨b, t⟩⟩ <;>
      simp [dailyChangeMetric, lastTwoCloses, hr]
  · intro h a b t hr
    simp [dailyChangeMetric, lastTwoCloses, hr]

theorem daily_change_metric_spec_witness :
    ([⟨0, 100⟩, ⟨1, 105⟩] : Hist).reverse = [⟨1, 105⟩, ⟨0, 100⟩] ∧
    dailyChangeMetric [⟨0, 100⟩, ⟨1, 105⟩] =
      some (Output.metric "Daily Change"
        ("$" ++ fmtFixed 2 ((⟨1, 105⟩ : Row).close - (⟨0, 100⟩ : Row).close))
        (some (fmtFixed 2 (((⟨1, 105⟩ : Row).close - (⟨0, 100⟩ : Row).close)
            / (⟨0, 100⟩ : Row).close * 100) ++ "%"))) :=
  ⟨by with_unfolding_all rfl,
   daily_change_metric_spec.2.1 [⟨0, 100⟩, ⟨1, 105⟩] ⟨1, 105⟩ ⟨0, 100⟩ []
     (by with_unfolding_all rfl)⟩

/-- C6 counterexample: currentPrice present but equal to 0 renders "N/A"
rather than the formatted present value $0.00, refuting the presence-based
reading of the fallback chain. -/
theorem price_zero_counterexample :
    Info.get [("currentPrice", Val.num 0)] "currentPrice" = some (Val.num 0) ∧
    priceDisplay [("currentPrice", Val.num 0)] = Except.ok "N/A" ∧
    "$" ++ fmtCommaFixed 2 0 = "$0.00" ∧ ("N/A" : String) ≠ "$0.00" := by
  refine ⟨by decide, rfl, by with_unfolding_all rfl, by decide⟩

/-- C6 amended: the current-price metric uses currentPrice when truthy, else
regularMarketPrice; whenever the resolved price is falsy (in particular when
both fields are missing) it renders "N/A" and no exception is raised. -/
theorem price_display_amended (info : Info) :
    (truthy (Info.get info "currentPrice") = true →
        resolvedPrice info = Info.get info "currentPrice") ∧
    (truthy (Info.get info "currentPrice") = false →
        resolvedPrice info = Info.get info "regularMarketPrice") ∧
    (truthy (resolvedPrice info) = false → priceDisplay info = Except.ok "N/A") ∧
    (Info.get info "currentPrice" = none → Info.get info "regularMarketPrice" = none →
        priceDisplay info = Except.ok "N/A") := by
  refine ⟨?_, ?_, ?_, ?_⟩
  · intro h; simp [resolvedPrice, pyOr, h]
  · intro h; simp [resolvedPrice, pyOr, h]
  · intro h; simp [priceDisplay, h]
  · intro h1 h2
    simp [priceDisplay, resolvedPrice, pyOr, h1, h2, truthy]

theorem price_display_amended_witness :
    Info.get ([] : Info) "currentPrice" = none ∧
    Info.get ([] : Info) "regularMarketPrice" = none ∧
    priceDisplay [] = Except.ok "N/A" :=
  ⟨rfl, rfl, (price_display_amended []).2.2.2 rfl rfl⟩

/-- C7 counterexample: with both 52-week fields absent the range metric
interpolates the raw values and displays "$None / $None", not "N/A". -/
theorem range_none_counterexample :
    Info.get ([] : Info) "fiftyTwoWeekHigh" = none ∧
    Info.get ([] : Info) "fiftyTwoWeekLow" = none ∧
    rangeDisplay [] = "$None / $None" ∧ ("$None / $None" : String) ≠ "N/A" := by
  refine ⟨rfl, rfl, by decide, by decide⟩

/-- C7 amended: the market-cap metric is a passthrough guarded by truthiness,
showing "N/A" when the field is absent or falsy and the grouped format of a
truthy numeric value otherwise; the 52-week metric interpolates the raw
field values with no guard, so absent fields print as "None". -/
theorem cap_range_display_amended (info : Info) :
    (truthy (Info.get info "marketCap") = false →
        capDisplay info = Except.ok "N/A") ∧
    (∀ q : ℚ, Info.get info "marketCap" = some (Val.num q) → q ≠ 0 →
        capDisplay info = Except.ok ("$" ++ fmtCommaFixed 0 q)) ∧
    rangeDisplay info =
      "$" ++ pyStr (Info.get info "fiftyTwoWeekHigh") ++ " / $"
          ++ pyStr (Info.get info "fiftyTwoWeekLow") := by
  refine ⟨?_, ?_, rfl⟩
  · intro h; simp [capDisplay, h]
  · intro q hq hne
    simp [capDisplay, hq, truthy, fmtMoneyVal, hne, Except.map]

theorem cap_range_display_amended_witness :
    Info.get [("marketCap", Val.num 5)] "marketCap" = some (Val.num 5) ∧
    (5 : ℚ) ≠ 0 ∧
    capDisplay [("marketCap", Val.num 5)] = Except.ok ("$" ++ fmtCommaFixed 0 5) :=
  ⟨by decide, by norm_num,
   (cap_range_display_amended [("marketCap", Val.num 5)]).2.1 5 (by decide) (by norm_num)⟩

/-- C8: a news item is kept iff both headline and url are present and
non-empty; the kept items are a sublist of the fetched list (provider order
preserved, no re-sorting); the emitted cards are exactly the first five kept
items in order, and never more than five. -/
theorem news_filter_spec :
    (∀ i : NewsItem, keepItem i = true ↔
        (∃ s, i.headline = some s ∧ s ≠ "") ∧ (∃ u, i.url = some u ∧ u ≠ "")) ∧
    keepItem ⟨some "", some "https://x", none, none⟩ = false ∧
    keepItem ⟨some "A", some "https://x", none, none⟩ = true ∧
    (∀ (k : String) (d : List NewsItem),
        List.Sublist (get_company_news k (Except.ok (200, d))) d) ∧
    (∀ (k t : String) (r : Except Exn (ℕ × List NewsItem)), k ≠ "" →
        (newsStep k t r).filter isNewsCard =
          ((get_company_news k r).take 5).map Output.newsCard) ∧
    (∀ (k t : String) (r : Except Exn (ℕ × List NewsItem)),
        ((newsStep k t r).filter isNewsCard).length ≤ 5) := by
  have hskip : ∀ (s : String) (ns : List NewsItem),
      (Output.subheader s :: ns.map Output.newsCard).filter isNewsCard =
        ns.map Output.newsCard := by
    intro s ns
    show (ns.map Output.newsCard).filter isNewsCard = ns.map Output.newsCard
    exact filter_isNewsCard_map ns
  have hfilter : ∀ (k t : String) (r : Except Exn (ℕ × List NewsItem)), k ≠ "" →
      (newsStep k t r).filter isNewsCard =
        ((get_company_news k r).take 5).map Output.newsCard := by
    intro k t r hk
    rcases hnews : get_company_news k r with _ | ⟨a, l⟩
    · have h1 : newsStep k t r =
          [Output.subheader ("📰 " ++ t ++ " Recent News"),
           Output.info "No recent news available."] := by
        unfold newsStep
        rw [if_neg hk, hnews]
        rfl
      rw [h1]
      rfl
    · have h1 : newsStep k t r =
          Output.subheader ("📰 " ++ t ++ " Recent News") ::
            ((a :: l).take 5).map Output.newsCard := by
        unfold newsStep
        rw [if_neg hk, hnews]
        rfl
      rw [h1]
      exact hskip _ _
  refine ⟨?_, by decide, by decide, ?_, hfilter, ?_⟩
  · intro i
    rcases i with ⟨hd, u, s, dt⟩
    cases hd <;> cases u <;> simp [keepItem, truthyOS]
  · intro k d
    by_cases hk : k = ""
    · simp [get_company_news, hk]
    · simp [get_company_news, hk]
  · intro k t r
    by_cases hk : k = ""
    · simp [newsStep, hk, List.filter, isNewsCard]
    · rw [hfilter k t r hk]
      calc ((((get_company_news k r).take 5)).map Output.newsCard).length
          = ((get_company_news k r).take 5).length := by rw [List.length_map]
        _ ≤ 5 := List.length_take_le 5 (get_company_news k r)

theorem news_filter_spec_witness :
    ("k" : String) ≠ "" ∧
    (newsStep "k" "T" (Except.ok (200,
        [⟨some "A", some "https://x", none, none⟩,
         ⟨some "", some "https://x", none, none⟩]))).filter isNewsCard =
      ((get_company_news "k" (Except.ok (200,
        [⟨some "A", some "https://x", none, none⟩,
         ⟨some "", some "https://x", none, none⟩]))).take 5).map Output.newsCard :=
  ⟨by decide,
   news_filter_spec.2.2.2.2.1 "k" "T" (Except.ok (200,
      [⟨some "A", some "https://x", none, none⟩,
       ⟨some "", some "https://x", none, none⟩])) (by decide)⟩

/-- C9: with an existing last_refresh the scheduler fires exactly when
now - last_refresh strictly exceeds the interval, resetting last_refresh to
now and triggering the rerun; otherwise the state is unchanged and no rerun
occurs; with interval 60, elapsed 61 fires and elapsed 59 does not. -/
theorem refresh_scheduler_spec (lr now rate : ℚ) :
    (now - lr > rate → refreshCheck (some lr) now rate = (now, true)) ∧
    (¬ now - lr > rate → refreshCheck (some lr) now rate = (lr, false)) ∧
    refreshCheck (some 0) 61 60 = (61, true) ∧
    refreshCheck (some 0) 59 60 = (0, false) := by
  refine ⟨?_, ?_, by with_unfolding_all rfl, by with_unfolding_all rfl⟩
  · intro h; simp [refreshCheck, h]
  · intro h; simp [refreshCheck, h]

theorem refresh_scheduler_spec_witness :
    ((61 : ℚ) - 0 > 60) ∧ refreshCheck (some 0) 61 60 = (61, true) :=
  ⟨by norm_num, (refresh_scheduler_spec 0 61 60).1 (by norm_num)⟩

/-- C10: whenever the resolved price or the market cap is falsy (0, the empty
string, or absent), the corresponding metric displays "N/A" rather than a
formatted value, and a zero currentPrice makes the fallback consult
regularMarketPrice, because both guards test Python truthiness. -/
theorem falsy_displays_na (info : Info) :
    (truthy (resolvedPrice info) = false → priceDisplay info = Except.ok "N/A") ∧
    (resolvedPrice info = some (Val.num 0) → priceDisplay info = Except.ok "N/A") ∧
    (resolvedPrice info = some (Val.str "") → priceDisplay info = Except.ok "N/A") ∧
    (Info.get info "marketCap" = some (Val.num 0) → capDisplay info = Except.ok "N/A") ∧
    (Info.get info "marketCap" = some (Val.str "") → capDisplay info = Except.ok "N/A") ∧
    (Info.get info "currentPrice" = some (Val.num 0) →
        resolvedPrice info = Info.get info "regularMarketPrice") := by
  refine ⟨?_, ?_, ?_, ?_, ?_, ?_⟩
  · intro h; simp [priceDisplay, h]
  · intro h; simp [priceDisplay, h, truthy]
  · intro h; simp [priceDisplay, h, truthy]
  · intro h; simp [capDisplay, h, truthy]
  · intro h; simp [capDisplay, h, truthy]
  · intro h; simp [resolvedPrice, pyOr, h, truthy]

theorem falsy_displays_na_witness :
    resolvedPrice [("regularMarketPrice", Val.num 0)] = some (Val.num 0) ∧
    priceDisplay [("regularMarketPrice", Val.num 0)] = Except.ok "N/A" :=
  ⟨by decide, (falsy_displays_na [("regularMarketPrice", Val.num 0)]).2.1 (by decide)⟩
